import Mathlib

/-!
# CanSat-GSS `DataParser` — shallow embedding and verification

Shallow embedding of `src/src/DataParser.cpp` (class `DataParser`), the
telemetry-packet decode-and-validate pipeline of the Kaan-Sat CanSat ground
station, together with theorems settling the frozen specification claims.

Modelling conventions:
- `QByteArray` / `QString` frames are modelled as `List Char` (the wire format
  is ASCII text).
- `QVariant` slots are modelled by the sum type `VValue`; `double` / `float`
  slots are modelled as exact rationals (`Rat`), abstracting IEEE-754 rounding;
  no settled claim depends on float rounding.
- Machine integers are modelled as `Nat` / `Int` with explicit range behaviour
  where the source's Qt conversions impose it (32-bit `toInt` / `toUInt`
  return 0 when the token is unparseable or out of range).
- All indexing is total: `xs[i]?` returns `none` out of bounds.  A `none`
  result of a pipeline stage marks an out-of-bounds `at()` access, which in
  the C++ source is undefined behaviour (assertion failure / crash).
- `Constants.h` and `crc32.h` belong to the repository but are not under
  `src/`; their contents are modelled from the spec (see the doc comments
  starting with `Modelled from the spec:`).
-/

/-! ## Field indices (Constants.h, modelled from the spec) -/

/-- Modelled from the spec: `Constants.h` is not under `src/`.  The spec's
FieldIndex section fixes an ordered enumeration of the telemetry fields with
the checksum always last; its field list and the concrete scenario frame in
the testable-properties section enumerate, in order: header, team ID, packet
count, mission time, altitude, battery voltage, relative humidity, UV index,
internal temp, external temp, atmospheric pressure, GPS time, GPS altitude,
GPS velocity, GPS latitude, GPS longitude, GPS satellite count,
accelerometer X/Y/Z, gyroscope X/Y/Z, checksum.  Zero-based positional
enumeration gives `kHeader = 0` through `kChecksumCode = 23`. -/
def kHeader : Nat := 0

def kTeamID : Nat := 1

def kPacketCount : Nat := 2

def kMisionTime : Nat := 3

def kAltitude : Nat := 4

def kBatteryVoltage : Nat := 5

def kRelativeHumidity : Nat := 6

def kUvRadiationIndex : Nat := 7

def kInternalTemp : Nat := 8

def kExternalTemp : Nat := 9

def kAtmPressure : Nat := 10

def kGpsTime : Nat := 11

def kGpsAltitude : Nat := 12

def kGpsVelocity : Nat := 13

def kGpsLatitude : Nat := 14

def kGpsLongitude : Nat := 15

def kGpsSatelliteCount : Nat := 16

def kAccelerometerX : Nat := 17

def kAccelerometerY : Nat := 18

def kAccelerometerZ : Nat := 19

def kGyroscopeX : Nat := 20

def kGyroscopeY : Nat := 21

def kGyroscopeZ : Nat := 22

/-- Modelled from the spec: the checksum field is always the last FieldIndex
member, index 23 in the zero-based enumeration above. -/
def kChecksumCode : Nat := 23

/-- Modelled from the spec: fixed literal header marker (`HEADER_CODE` in
`Constants.h`).  The spec fixes only that it is a fixed literal prefix; the
concrete scenario frame in the spec begins with the field `HEADER`, which we
adopt as the representative literal. -/
def HEADER_CODE : List Char := ['H', 'E', 'A', 'D', 'E', 'R']

/-- Modelled from the spec: fixed single-character field delimiter
(`DATA_SEPARATOR` in `Constants.h`).  The spec's concrete scenario frame is
comma-separated. -/
def DATA_SEPARATOR : Char := ','

/-- Modelled from the spec: fixed single-character secondary end-of-transmission
marker (`EOT_SECONDARY` in `Constants.h`), distinct from the primary marker
used upstream.  The spec fixes only that it is a single fixed character; we
use a representative one. -/
def EOT_SECONDARY : Char := '~'

/-! ## Qt string-to-number coercions (QString::toInt / toUInt / toDouble) -/

/-- Value of a list of decimal digit characters. -/
def digitsToNat (cs : List Char) : Nat :=
  cs.foldl (fun a c => 10 * a + (c.toNat - 48)) 0

/-- Whether every character of the token is a decimal digit. -/
def allDigits (cs : List Char) : Bool :=
  cs.all fun c => c.isDigit

/-- Numeric value of a nonempty all-digit token, `none` otherwise. -/
def natTokenVal (cs : List Char) : Option Nat :=
  if cs.isEmpty then none
  else if allDigits cs then some (digitsToNat cs) else none

/-- Models `QString::toUInt` (base 10): an optional leading plus sign followed
by decimal digits, with the value in unsigned 32-bit range; any parse failure
or out-of-range value yields the conventional 0 (Qt returns 0 with
`ok = false`). -/
def qstringToUInt (cs : List Char) : Nat :=
  let body := match cs with
    | '+' :: rest => rest
    | _ => cs
  match natTokenVal body with
  | some v => if v ≤ 4294967295 then v else 0
  | none => 0

/-- Models `QString::toInt` (base 10): an optional sign followed by decimal
digits, with the value in signed 32-bit range; any parse failure or
out-of-range value yields the conventional 0. -/
def qstringToInt (cs : List Char) : Int :=
  match cs with
  | '-' :: rest =>
    match natTokenVal rest with
    | some v => if v ≤ 2147483648 then -(Int.ofNat v) else 0
    | none => 0
  | '+' :: rest =>
    match natTokenVal rest with
    | some v => if v ≤ 2147483647 then Int.ofNat v else 0
    | none => 0
  | _ =>
    match natTokenVal cs with
    | some v => if v ≤ 2147483647 then Int.ofNat v else 0
    | none => 0

/-- Splits a character list on a separator character, keeping empty parts;
models `QString::split(sep)` with the default `KeepEmptyParts` behaviour.
The result is always nonempty; splitting the empty string yields one empty
token, as in Qt. -/
def splitSep (sep : Char) : List Char → List (List Char)
  | [] => [[]]
  | c :: rest =>
    match splitSep sep rest with
    | [] => [[]]
    | t :: ts => if c = sep then [] :: t :: ts else (c :: t) :: ts

/-- Magnitude of a decimal token: digits, optionally with a single decimal
point (`D+`, `D+.D*`, `D*.D+`); `none` when not of that shape. -/
def ratMagnitude (cs : List Char) : Option Rat :=
  match splitSep '.' cs with
  | [ip] => (natTokenVal ip).map fun v => (v : Rat)
  | [ip, fp] =>
    if ip.isEmpty && fp.isEmpty then none
    else if allDigits ip && allDigits fp then
      some ((digitsToNat ip : Rat) + (digitsToNat fp : Rat) / ((10 : Rat) ^ fp.length))
    else none
  | _ => none

/-- Models `QString::toDouble` on the token shapes the wire format carries:
an optional sign and a plain decimal numeral, evaluated exactly as a rational
(IEEE-754 rounding of the source's `double` is abstracted away; exponent
forms are not exercised by any frame considered here).  Parse failure yields
the conventional 0. -/
def qstringToRat (cs : List Char) : Rat :=
  match cs with
  | '-' :: rest => (((ratMagnitude rest).map fun q => -q)).getD 0
  | '+' :: rest => (ratMagnitude rest).getD 0
  | _ => (ratMagnitude cs).getD 0

/-- Models `QString::toFloat`: same numeral grammar as `toDouble`, with the
`float` narrowing abstracted to the exact rational value. -/
def qstringToFloat (cs : List Char) : Rat :=
  qstringToRat cs

/-! ## QVariant model -/

/-- A `QVariant` slot of the reading vector: the source stores strings
(`kHeader`, `kGpsSatelliteCount`), signed ints (`toInt`), unsigned 32-bit
ints (`toUInt`), and doubles/floats (modelled as exact rationals). -/
inductive VValue where
  | vStr : List Char → VValue
  | vInt : Int → VValue
  | vUInt : Nat → VValue
  | vRat : Rat → VValue
  deriving DecidableEq

/-- Models `QVariant::toInt` on the stored value kinds. -/
def qvToInt : VValue → Int
  | VValue.vStr s => qstringToInt s
  | VValue.vInt n => n
  | VValue.vUInt n => Int.ofNat n
  | VValue.vRat q => q.num.tdiv (q.den : Int)

/-- Models `QVariant::toUInt` on the stored value kinds. -/
def qvToUInt : VValue → Nat
  | VValue.vStr s => qstringToUInt s
  | VValue.vInt n => (n.emod 4294967296).toNat
  | VValue.vUInt n => n
  | VValue.vRat q => ((q.num.tdiv (q.den : Int)).emod 4294967296).toNat

/-- Models `QVariant::toDouble` on the stored value kinds. -/
def qvToRat : VValue → Rat
  | VValue.vStr s => qstringToRat s
  | VValue.vInt n => (n : Rat)
  | VValue.vUInt n => (n : Rat)
  | VValue.vRat q => q

/-! ## CRC-32 (crc32.h, modelled from the spec) -/

/-- One shift-and-conditional-xor round of the reflected CRC-32 algorithm
with the IEEE 802.3 polynomial `0xEDB88320`. -/
def crc32Round (c : Nat) : Nat :=
  if c % 2 = 1 then (c / 2) ^^^ 0xEDB88320 else c / 2

/-- Folds one input byte into the running CRC: xor it in, then run eight
rounds. -/
def crc32UpdateByte (crc b : Nat) : Nat :=
  crc32Round (crc32Round (crc32Round (crc32Round
    (crc32Round (crc32Round (crc32Round (crc32Round (crc ^^^ (b % 256)))))))))

/-- Modelled from the spec: `crc32.h` is not under `src/`; the spec treats the
checksum routine as a black-box pure `crc32(bytes) -> uint32`, the standard
CRC-32 of the source ecosystem (reflected, polynomial `0xEDB88320`, initial
value and final xor `0xFFFFFFFF`). -/
def CRC32 (bytes : List Nat) : Nat :=
  (bytes.foldl crc32UpdateByte 0xFFFFFFFF) ^^^ 0xFFFFFFFF

/-! ## DataParser state -/

/-- Models `EmptyDataPacket()` (DataParser.cpp lines 32-40): a vector of
`kChecksumCode` zero-valued `QVariant`s, built by appending `QVariant(0)`
exactly `static_cast<int>(kChecksumCode)` times. -/
def EmptyDataPacket : List VValue :=
  List.replicate kChecksumCode (VValue.vInt 0)

/-- The `DataParser` object state: the unused `m_crc32` member, the current
reading vector `m_data`, and the csv-logging flag. -/
structure DataParser where
  m_crc32 : Nat
  m_data : List VValue
  m_csvLoggingEnabled : Bool
  deriving DecidableEq

/-- Models the `DataParser` constructor (lines 46-55): `m_crc32 = 0`,
`m_data = EmptyDataPacket()`, `m_csvLoggingEnabled = false`. -/
def DataParser.init : DataParser :=
  DataParser.mk 0 EmptyDataPacket false

/-! ## Read accessors (DataParser.cpp lines 60-150), total: `none` marks an
out-of-bounds `QVector::at`. -/

/-- Models `DataParser::teamId` (line 61). -/
def teamId (dp : DataParser) : Option Int :=
  (dp.m_data[kTeamID]?).map qvToInt

/-- Models `DataParser::packetCount` (line 68). -/
def packetCount (dp : DataParser) : Option Int :=
  (dp.m_data[kPacketCount]?).map qvToInt

/-- Models `DataParser::missionTime` (line 76): note the source converts with
the 32-bit `toUInt` despite the `quint64` return type. -/
def missionTime (dp : DataParser) : Option Nat :=
  (dp.m_data[kMisionTime]?).map qvToUInt

/-- Models `DataParser::altitude` (line 84). -/
def altitude (dp : DataParser) : Option Rat :=
  (dp.m_data[kAltitude]?).map qvToRat

/-- Models `DataParser::batteryVoltage` (line 92). -/
def batteryVoltage (dp : DataParser) : Option Rat :=
  (dp.m_data[kBatteryVoltage]?).map qvToRat

/-- Models `DataParser::gpsVelocity` (lines 111-113). -/
def gpsVelocity (dp : DataParser) : Option Rat :=
  (dp.m_data[kGpsVelocity]?).map qvToRat

/-- Models `DataParser::gpsAltitude` (lines 115-117). -/
def gpsAltitude (dp : DataParser) : Option Rat :=
  (dp.m_data[kGpsAltitude]?).map qvToRat

/-- Models `DataParser::gpsLatitude` (lines 119-121). -/
def gpsLatitude (dp : DataParser) : Option Rat :=
  (dp.m_data[kGpsLatitude]?).map qvToRat

/-- Models `DataParser::gpsLongitude` (lines 123-125). -/
def gpsLongitude (dp : DataParser) : Option Rat :=
  (dp.m_data[kGpsLongitude]?).map qvToRat

/-- Models `DataParser::gpsSatelliteCount` (lines 127-129). -/
def gpsSatelliteCount (dp : DataParser) : Option Int :=
  (dp.m_data[kGpsSatelliteCount]?).map qvToInt

/-- Models `DataParser::checksum` (lines 148-150): reads slot
`kChecksumCode` of the current reading vector. -/
def checksum (dp : DataParser) : Option Nat :=
  (dp.m_data[kChecksumCode]?).map qvToUInt

/-! ## parsePacket (DataParser.cpp lines 161-297) -/

/-- Signal outcome of one `parsePacket` call: `packetError`, or `dataParsed`
with a flag recording whether `satelliteReset` was also emitted. -/
inductive Outcome where
  | packetError : Outcome
  | dataParsed : Bool → Outcome
  deriving DecidableEq

/-- Raw packet validation block (lines 168-193): empty check, `HEADER_CODE`
prefix check, `EOT_SECONDARY` suffix check; on success the trailing
secondary-EOT character is chopped (`copy.chop(1)`, line 193) and the
trimmed copy is returned for tokenization. -/
def frameValidate (packet : List Char) : Option (List Char) :=
  if packet.isEmpty then none
  else if HEADER_CODE.isPrefixOf packet then
    if packet.getLast? = some EOT_SECONDARY then some packet.dropLast
    else none
  else none

/-- Insertion at a position, models `QVector::insert(i, value)`: the value is
inserted before position `i`, shifting later elements right. -/
def listInsertAt {α : Type} (i : Nat) (v : α) (xs : List α) : List α :=
  xs.take i ++ v :: xs.drop i

/-- Packet reconstruction without the CRC32 code (lines 207-214): for each
`i` below `EmptyDataPacket().size()`, when `i` differs from `kChecksumCode`
append token `i` and then the separator.  A `none` marks an out-of-bounds
`data.at(i)`. -/
def reconstruct (data : List (List Char)) : Option (List Char) :=
  (List.range EmptyDataPacket.length).foldl
    (fun acc i =>
      match acc with
      | none => none
      | some rp =>
        if i ≠ kChecksumCode then
          match data[i]? with
          | none => none
          | some tok => some (rp ++ tok ++ [DATA_SEPARATOR])
        else some rp)
    (some [])

/-- Coercion applied by one `info.insert` line of the data handling block:
raw string store, `toInt`, `toUInt`, `toDouble`, or `toFloat`. -/
inductive Coerce where
  | cStr : Coerce
  | cInt : Coerce
  | cUInt : Coerce
  | cDouble : Coerce
  | cFloat : Coerce
  deriving DecidableEq

/-- Applies one coercion to a token, producing the stored `QVariant`. -/
def coerceTok : Coerce → List Char → VValue
  | Coerce.cStr, t => VValue.vStr t
  | Coerce.cInt, t => VValue.vInt (qstringToInt t)
  | Coerce.cUInt, t => VValue.vUInt (qstringToUInt t)
  | Coerce.cDouble, t => VValue.vRat (qstringToRat t)
  | Coerce.cFloat, t => VValue.vRat (qstringToFloat t)

/-- The exact `(index, coercion)` sequence of the source's `info.insert`
calls (lines 237-286) in source order — including the duplicated
`kGpsAltitude` insert (lines 261-266) and the uncoerced string store at
`kGpsSatelliteCount` (lines 271-272). -/
def insertSchedule : List (Nat × Coerce) :=
  [(kHeader, Coerce.cStr), (kTeamID, Coerce.cInt), (kPacketCount, Coerce.cInt),
   (kMisionTime, Coerce.cUInt), (kAltitude, Coerce.cDouble),
   (kBatteryVoltage, Coerce.cDouble), (kRelativeHumidity, Coerce.cDouble),
   (kUvRadiationIndex, Coerce.cDouble), (kInternalTemp, Coerce.cDouble),
   (kExternalTemp, Coerce.cDouble), (kAtmPressure, Coerce.cDouble),
   (kGpsTime, Coerce.cUInt), (kGpsAltitude, Coerce.cDouble),
   (kGpsVelocity, Coerce.cDouble), (kGpsAltitude, Coerce.cDouble),
   (kGpsLatitude, Coerce.cDouble), (kGpsLongitude, Coerce.cDouble),
   (kGpsSatelliteCount, Coerce.cStr), (kAccelerometerX, Coerce.cFloat),
   (kAccelerometerY, Coerce.cFloat), (kAccelerometerZ, Coerce.cFloat),
   (kGyroscopeX, Coerce.cFloat), (kGyroscopeY, Coerce.cFloat),
   (kGyroscopeZ, Coerce.cFloat), (kChecksumCode, Coerce.cUInt)]

/-- Data handling block (lines 232-286): starts from `EmptyDataPacket()` and
performs the source's `info.insert(index, QVariant(coercion(data.at(index))))`
calls in order, per `insertSchedule`.  A `none` marks an out-of-bounds
`data.at(i)`. -/
def buildInfo (data : List (List Char)) : Option (List VValue) :=
  insertSchedule.foldl
    (fun acc ic =>
      match acc with
      | none => none
      | some info =>
        match data[ic.1]? with
        | none => none
        | some t => some (listInsertAt ic.1 (coerceTok ic.2 t) info))
    (some EmptyDataPacket)

/-- Data handling tail (lines 288-296): compare the current `missionTime()`
with the candidate's mission-time slot, then commit the candidate vector and
emit `dataParsed` (with the `satelliteReset` flag when the current time is
strictly greater). -/
def dataStage (st : DataParser) (data : List (List Char)) :
    Option (Outcome × DataParser) :=
  match buildInfo data with
  | none => none
  | some info =>
    match st.m_data[kMisionTime]?, info[kMisionTime]? with
    | some cur, some nw =>
      some (Outcome.dataParsed (decide (qvToUInt cur > qvToUInt nw)),
        DataParser.mk st.m_crc32 info st.m_csvLoggingEnabled)
    | _, _ => none

/-- CRC-32 validation block (lines 206-227): reconstruct the packet, compute
the local CRC-32 over its bytes, read the remote checksum token at index
`kChecksumCode` (`none` when out of bounds), convert it with `toUInt`, and
on mismatch emit `packetError`; otherwise fall through to the data handling
block. -/
def crcStage (st : DataParser) (data : List (List Char)) :
    Option (Outcome × DataParser) :=
  match reconstruct data with
  | none => none
  | some rp =>
    match data[kChecksumCode]? with
    | none => none
    | some ctok =>
      if CRC32 (rp.map Char.toNat) ≠ qstringToUInt ctok then
        some (Outcome.packetError, st)
      else dataStage st data

/-- Models `DataParser::parsePacket` (lines 161-297) end to end: raw packet
validation, token-count check against `EmptyDataPacket().count()`, CRC-32
validation, then data handling.  `some (outcome, state)` is a defined
return; `none` marks an out-of-bounds `at()` access (undefined behaviour in
the C++ source). -/
def parsePacket (st : DataParser) (packet : List Char) :
    Option (Outcome × DataParser) :=
  match frameValidate packet with
  | none => some (Outcome.packetError, st)
  | some copy =>
    if (splitSep DATA_SEPARATOR copy).length ≠ EmptyDataPacket.length then
      some (Outcome.packetError, st)
    else crcStage st (splitSep DATA_SEPARATOR copy)

/-! ## Concrete frames used by the claim theorems -/

/-- A well-framed packet whose body splits into exactly
`EmptyDataPacket().count()` = 23 tokens. -/
def frameC1 : List Char :=
  "HEADER,1,2,3,4,5,6,7,8,9,10,11,12,13,14,15,16,17,18,19,20,21,22~".data

/-- A well-framed 23-token packet whose last token is a numeral playing the
role of a (mismatching) checksum. -/
def frameC2 : List Char :=
  "HEADER,1,1,500,9.5,3.3,50,1,20,18,100,60,5,6,7,8,9,1,2,3,4,5,999~".data

/-- A valid-per-spec first frame with mission time 1000 (23 tokens). -/
def frameC5 : List Char :=
  "HEADER,3,10,1000,1,1,1,1,1,1,1,1,1,1,1,1,1,1,1,1,1,1,1~".data

/-- A valid-per-spec second frame with the strictly smaller mission time
500 (23 tokens). -/
def frameC5b : List Char :=
  "HEADER,3,11,500,1,1,1,1,1,1,1,1,1,1,1,1,1,1,1,1,1,1,1~".data

/-- A hypothetical state in which a reading with mission time 1000 is
current, as if the first frame of the monotonic-time scenario had been
applied. -/
def stT1 : DataParser :=
  DataParser.mk 0 (List.set EmptyDataPacket kMisionTime (VValue.vUInt 1000)) false

/-- A valid-per-spec frame with mission time 2000 (23 tokens), decoded twice
in the idempotence scenario. -/
def frameC7 : List Char :=
  "HEADER,4,11,2000,2,2,2,2,2,2,2,2,2,2,2,2,2,2,2,2,2,2,2~".data

/-- A hypothetical state in which a reading with mission time 2000 is
current, as if `frameC7` had already been applied once. -/
def stC7 : DataParser :=
  DataParser.mk 0 (List.set EmptyDataPacket kMisionTime (VValue.vUInt 2000)) false

/-- A well-framed 23-token packet whose altitude token `abc` is not parseable
as a number. -/
def frameC8 : List Char :=
  "HEADER,5,12,3000,abc,3,3,3,3,3,3,3,3,3,3,3,3,3,3,3,3,3,3~".data

/-- The body of the spec's concrete scenario frame: its 23 data fields
followed by the checksum field, 24 separator-delimited tokens in total, with
the checksum computed per the spec's reconstruction rule (every data field
followed by the separator). -/
def bodyC6 : List Char :=
  "HEADER,1,5,1000,100.5,7.4,0,0,0,0,0,0,0,0,0,0,8,0,0,0,0,0,0,2029385594".data

/-- A 24-token body with pairwise distinct GPS-altitude (token 12, value 12)
and GPS-velocity (token 13, value 13) fields, used to trace the data-handling
block's duplicated `kGpsAltitude` insert. -/
def bodyC6B : List Char :=
  "HEADER,7,8,9000,1.5,3.7,40,2,21,19,101.3,77,12,13,4.1,5.2,6,0.1,0.2,0.3,1.1,1.2,1.3,12345".data

/-- A 24-token body whose mission-time token `4294967296` equals 2^32, one
past the unsigned 32-bit range. -/
def bodyC9 : List Char :=
  "HEADER,6,13,4294967296,1,1,1,1,1,1,1,1,1,1,1,1,1,1,1,1,1,1,1,77".data

/-! ## Helper lemmas -/

/-- Out-of-bounds total indexing yields `none`. -/
theorem listGetqNone {α : Type} :
    ∀ (l : List α) (n : Nat), l.length ≤ n → l[n]? = none
  | [], n, _ => by cases n <;> rfl
  | _ :: l, 0, h => absurd h (Nat.not_succ_le_zero _)
  | a :: l, n + 1, h => by
    have ih := listGetqNone l n (Nat.le_of_succ_le_succ h)
    simpa using ih

/-- Whenever the token list is no longer than `kChecksumCode`, the CRC stage
hits the out-of-bounds read of the checksum token and aborts. -/
theorem crcStage_eq_none (st : DataParser) (data : List (List Char))
    (h : data.length ≤ kChecksumCode) : crcStage st data = none := by
  have hnone : data[kChecksumCode]? = none := listGetqNone data kChecksumCode h
  unfold crcStage
  rcases hr : reconstruct data with _ | rp
  · simp only [hr]
  · simp only [hr, hnone]

/-- `EmptyDataPacket()` has `kChecksumCode` = 23 elements. -/
theorem EmptyDataPacket_length : EmptyDataPacket.length = 23 := by
  simp [EmptyDataPacket, kChecksumCode]

/-- Every defined return of `parsePacket` is `packetError` with the state
unchanged: no call ever reaches the commit, because after the token-count
check passes the token list has exactly `EmptyDataPacket().count()` =
`kChecksumCode` entries and the read of `data.at(kChecksumCode)` in the
CRC-32 block is out of bounds. -/
theorem parsePacket_never_succeeds (st : DataParser) (p : List Char) :
    parsePacket st p = none ∨ parsePacket st p = some (Outcome.packetError, st) := by
  unfold parsePacket
  split
  · exact Or.inr rfl
  · split
    · exact Or.inr rfl
    · rename_i copy hlen
      refine Or.inl (crcStage_eq_none st _ ?_)
      rw [not_ne_iff.mp hlen, EmptyDataPacket_length]
      decide

/-! ## Claim theorems -/

/-- Claim C1 (code_bug evidence).  The claim states that every indexing
operation along every path of `parsePacket` is in bounds.  In fact: (1) every
defined return of `parsePacket` is `packetError` with the state unchanged —
no decode ever completes; (2) on a concrete well-framed 23-token frame,
`parsePacket` aborts with an out-of-bounds access (`none`); (3) the read of
the checksum token at index `kChecksumCode` is out of bounds for the very
token list that just passed the token-count check. -/
theorem decode_inbounds_refuted :
    (∀ (st : DataParser) (p : List Char),
      parsePacket st p = none ∨ parsePacket st p = some (Outcome.packetError, st))
    ∧ parsePacket DataParser.init frameC1 = none
    ∧ (splitSep DATA_SEPARATOR frameC1.dropLast)[kChecksumCode]? = none :=
  ⟨parsePacket_never_succeeds, by decide, by decide⟩

/-- Claim C2 (code_bug evidence).  On a well-framed, correctly-tokenized
frame the CRC stage never reaches the comparison: `parsePacket` aborts with
the out-of-bounds read of the checksum token (`none`), and the
reconstruction loop — whose bound `EmptyDataPacket().count()` is below
`kChecksumCode` — excludes no token at all: it rebuilds the entire trimmed
body (every token, checksum position included, each followed by the
separator). -/
theorem checksum_stage_refuted :
    parsePacket DataParser.init frameC2 = none
    ∧ reconstruct (splitSep DATA_SEPARATOR frameC2.dropLast)
        = some (frameC2.dropLast ++ [DATA_SEPARATOR]) :=
  ⟨by decide, by decide⟩

/-- Claim C3 (confirmed).  Every input that fails frame validation — empty,
not starting with `HEADER_CODE`, or not ending with `EOT_SECONDARY` — makes
`parsePacket` emit `packetError` and leave the state byte-identical; and on
success frame validation returns the packet with exactly its one trailing
character (the secondary EOT marker) stripped. -/
theorem frame_validation_spec :
    (∀ (st : DataParser) (p : List Char),
      p = [] ∨ HEADER_CODE.isPrefixOf p = false ∨ p.getLast? ≠ some EOT_SECONDARY →
      parsePacket st p = some (Outcome.packetError, st))
    ∧ (∀ (p q : List Char), frameValidate p = some q →
        q = p.dropLast ∧ p.getLast? = some EOT_SECONDARY) := by
  constructor
  · intro st p hbad
    have hnone : frameValidate p = none := by
      unfold frameValidate
      rcases hbad with h | h | h <;> split_ifs <;> simp_all
    simp [parsePacket, hnone]
  · intro p q hv
    unfold frameValidate at hv
    split_ifs at hv with h1 h2 h3
    · exact ⟨(Option.some_inj.mp hv).symm, h3⟩

/-- Witness for C3: a packet with a corrupted header marker is rejected with
`packetError` and an unchanged state. -/
theorem frame_validation_spec_witness :
    parsePacket DataParser.init ("XEADER,1~".data)
      = some (Outcome.packetError, DataParser.init) :=
  frame_validation_spec.1 DataParser.init ("XEADER,1~".data)
    (Or.inr (Or.inl (by decide)))

/-- Claim C4 (confirmed).  For every well-framed input whose trimmed body
splits into a token count different from 23 = `EmptyDataPacket().count()`,
`parsePacket` emits `packetError` and returns with the state untouched,
before any field is interpreted. -/
theorem token_count_guard (st : DataParser) (p body : List Char)
    (hv : frameValidate p = some body)
    (hc : (splitSep DATA_SEPARATOR body).length ≠ 23) :
    parsePacket st p = some (Outcome.packetError, st) := by
  have hc' : (splitSep DATA_SEPARATOR body).length ≠ EmptyDataPacket.length := by
    rw [EmptyDataPacket_length]
    exact hc
  unfold parsePacket
  rw [hv]
  simp [hc']

/-- Witness for C4: a well-framed two-token packet is rejected with
`packetError` and an unchanged state. -/
theorem token_count_guard_witness :
    parsePacket DataParser.init ("HEADER,1~".data)
      = some (Outcome.packetError, DataParser.init) :=
  token_count_guard DataParser.init ("HEADER,1~".data) ("HEADER,1".data)
    (by decide) (by decide)

/-- Claim C5 (code_bug evidence).  The monotonic-time scenario is
unrealizable: decoding the first valid frame (mission time 1000) from the
initial state aborts with the out-of-bounds checksum read instead of
applying the reading; and even from a hypothetical state holding mission
time 1000, decoding the second frame (mission time 500) aborts the same way
— `satelliteReset` is never emitted and nothing is ever committed. -/
theorem reset_detection_unreachable :
    parsePacket DataParser.init frameC5 = none
    ∧ parsePacket stT1 frameC5b = none :=
  ⟨by decide, by decide⟩

/-- Claim C6 (code_bug evidence).  (1) The spec's own round-trip frame — 23
data fields plus a correctly computed CRC-32 checksum field, 24 tokens — is
rejected with `packetError` by the token-count check (which requires exactly
23 tokens).  (2) Independently, the data-handling block's duplicated
`kGpsAltitude` insert shifts the GPS-velocity value: on a 24-token body with
GPS-altitude 12 and GPS-velocity 13, the built reading answers 12 — the
altitude value — through the `gpsVelocity()` accessor, and the velocity
value 13 is stranded at index 24 where no accessor reads. -/
theorem round_trip_refuted :
    parsePacket DataParser.init (bodyC6 ++ [EOT_SECONDARY])
      = some (Outcome.packetError, DataParser.init)
    ∧ (buildInfo (splitSep DATA_SEPARATOR bodyC6B)).map
        (fun info => gpsVelocity (DataParser.mk 0 info false)) = some (some 12)
    ∧ (buildInfo (splitSep DATA_SEPARATOR bodyC6B)).map
        (fun info => info[24]?) = some (some (VValue.vRat 13)) :=
  ⟨by decide, by decide, by decide⟩

/-- Claim C7 (code_bug evidence).  Idempotence is unrealizable: decoding the
valid frame once from the initial state aborts with the out-of-bounds
checksum read, and decoding the same frame from the hypothetical state its
first application would have produced aborts identically — no reading is
ever produced once, let alone twice. -/
theorem idempotence_unreachable :
    parsePacket DataParser.init frameC7 = none
    ∧ parsePacket stC7 frameC7 = none :=
  ⟨by decide, by decide⟩

/-- Claim C8 (code_bug evidence).  A frame whose altitude token `abc` is not
parseable never reaches field coercion: `parsePacket` aborts with the
out-of-bounds checksum read (`none`) instead of succeeding.  The coercion
functions themselves do default silently to 0, as the claim describes. -/
theorem zero_coercion_unreachable :
    parsePacket DataParser.init frameC8 = none
    ∧ qstringToRat ("abc".data) = 0
    ∧ qstringToInt ("abc".data) = 0 :=
  ⟨by decide, by decide, by decide⟩

/-- Claim C9 (code_bug evidence).  The mission-time coercion is the 32-bit
`toUInt`: the token `4294967296` (= 2^32) collapses to 0 while `4294967295`
is the largest value preserved; consequently the data-handling block stores
the mission-time slot `0` for a frame carrying 2^32 milliseconds, not the
exact 64-bit value the claim requires. -/
theorem mission_time_u32_truncation :
    qstringToUInt ("4294967296".data) = 0
    ∧ qstringToUInt ("4294967295".data) = 4294967295
    ∧ (buildInfo (splitSep DATA_SEPARATOR bodyC9)).map
        (fun info => info[kMisionTime]?) = some (some (VValue.vUInt 0)) :=
  ⟨by decide, by decide, by decide⟩

/-- Claim C10 (confirmed).  The initial reading vector built by
`EmptyDataPacket()` has exactly `kChecksumCode` elements, so the
`checksum()` accessor — which reads index `kChecksumCode` — is out of bounds
on the initial state (`none` in the total embedding), while the other
accessors return the conventional zero default. -/
theorem initial_checksum_out_of_bounds :
    EmptyDataPacket.length = kChecksumCode
    ∧ checksum DataParser.init = none
    ∧ teamId DataParser.init = some 0
    ∧ missionTime DataParser.init = some 0
    ∧ altitude DataParser.init = some 0
    ∧ gpsVelocity DataParser.init = some 0 :=
  ⟨by decide, by decide, by decide, by decide, by decide, by decide⟩
